import Mathlib

/-
Verification of the command-line front end of the dnscat2 client
(src/client/dnscat.c) against its natural-language specification.

The C front end is embedded shallowly:
  * `applyOpt` mirrors the big `switch`/`if` chain inside `main`'s
    getopt loop (one case per long-option name in `long_options`);
  * `parseLoop` mirrors the `getopt_long_only` driver loop (empty
    optstring, argument permutation, `--` terminator, unknown options
    returned as `?` and ignored by the `default:` case);
  * `runMain` mirrors the straight-line code of `main` after the loop:
    the console default, the domain check, the `--chunk` check, the
    input/output sanity checks, DNS-host resolution, `atexit(cleanup)`
    registration, and the `message_post_*` calls before the reactor
    loop is entered;
  * `cleanup` mirrors the `cleanup()` function registered via `atexit`.

Machine integers are modelled as Nat with explicit reduction modulo
2^32 / 2^16 where the C code converts (`uint32_t chunk = atoi(...)`).
`exit(n)` and `usage()` (which prints and calls `exit(0)`) are modelled
by returning a `MainOutcome` with `exitCode = some n`; entering the
reactor loop is `exitCode = none`.
-/

namespace Dnscat

/-- Modelled from the spec: the numeric value of `LOG_LEVEL_WARNING` lives
in `log.h`, which is not part of the visible source; the spec fixes only
that the default console log level is the warning level, tuned by the
`-d`/`-q` counters. We model the conventional ordering
INFO < WARNING < ERROR < FATAL as 0 < 1 < 2 < 3, hence warning = 1. -/
def LOG_LEVEL_WARNING : Int := 1

/-- C `atoi`: digit accumulator (stops at the first non-digit). -/
def atoiDigits : List Char → Int → Int
  | [], acc => acc
  | c :: cs, acc =>
      if c.isDigit then atoiDigits cs (acc * 10 + ((c.toNat : Int) - 48)) else acc

/-- C `atoi`: skip leading whitespace, optional sign, then digits. -/
def atoi (s : String) : Int :=
  match s.data.dropWhile Char.isWhitespace with
  | '-' :: cs => - atoiDigits cs 0
  | '+' :: cs => atoiDigits cs 0
  | cs => atoiDigits cs 0

/-- C conversion of `int` to `uint32_t` (reduction modulo 2^32). -/
def toU32 (i : Int) : Nat := (i % 4294967296).toNat

/-- C conversion of `int` to `uint16_t` (reduction modulo 2^16). -/
def toU16 (i : Int) : Nat := (i % 65536).toNat

/-- The `long_options` table from `main` (name, takes-argument?), in
source order; `getopt_long_only` returns the first matching entry. -/
def longOptions : List (String × Bool) :=
  [ ("help", false), ("h", false),
    ("name", true), ("n", true),
    ("download", true), ("n", true),
    ("chunk", true),
    ("ping", false),
    ("stdin", false), ("console", false),
    ("command", false),
    ("exec", true), ("e", true),
    ("listen", true), ("l", true),
    ("dns", true), ("dnshost", true), ("host", true),
    ("dnsport", true), ("port", true),
    ("d", false), ("q", false) ]

/-- Look an option name up in the `long_options` table. -/
def findOpt (nm : String) : Option (String × Bool) :=
  longOptions.find? (fun p => p.1 == nm)

/-- Split an option body at the first `=` (getopt's `--name=value` form). -/
def splitEqAux : List Char → List Char → List Char × Option (List Char)
  | [], acc => (acc.reverse, none)
  | c :: cs, acc => if c = '=' then (acc.reverse, some cs) else splitEqAux cs (c :: acc)

/-- Split an option body at the first `=`, as strings. -/
def splitEq (cs : List Char) : String × Option String :=
  match splitEqAux cs [] with
  | (nm, none) => (String.mk nm, none)
  | (nm, some a) => (String.mk nm, some (String.mk a))

/-- Strip the leading dash(es) of an option token (`getopt_long_only`
treats `-name` and `--name` alike). -/
def optBody (t : String) : List Char :=
  match t.data with
  | '-' :: '-' :: rest => rest
  | '-' :: rest => rest
  | rest => rest

/-- A token is treated as an option by getopt when it starts with a dash
and is not exactly `-` (and `--`, checked separately, ends the scan). -/
def isOptTok (t : String) : Bool :=
  match t.data with
  | '-' :: _ :: _ => true
  | _ => false

/-- The mutable state of `main` during and after the getopt loop. -/
structure ParseState where
  inputSet : Bool := false
  outputSet : Bool := false
  console : Bool := false
  command : Bool := false
  exec : Bool := false
  listener : Bool := false
  ping : Bool := false
  dns : Bool := false
  dnsDomain : Option String := none
  host : Option String := none
  port : Nat := 53
  name : Option String := none
  download : Option String := none
  chunk : Nat := 4294967295
  minLogLevel : Int := LOG_LEVEL_WARNING
  positionals : List String := []
  deriving DecidableEq

/-- The branches of the `case 0:` switch body of `main`: one tag per
`strcmp` group of the `if` chain. `unhandled` is the final `else`
(`usage(argv[0], "Unknown option")`). -/
inductive OptTag where
  | help
  | name
  | download
  | chunk
  | ping
  | stdin
  | command
  | exec
  | listen
  | dns
  | dnshost
  | dnsport
  | dflag
  | qflag
  | unhandled
  deriving DecidableEq

/-- The `strcmp` chain of the `case 0:` switch body, in source order.
Note that the table entry `console` is matched by getopt but handled by
no branch of the chain, so it falls through to `unhandled`. -/
def optTag (nm : String) : OptTag :=
  if nm = "help" ∨ nm = "h" then .help
  else if nm = "name" ∨ nm = "n" then .name
  else if nm = "download" then .download
  else if nm = "chunk" then .chunk
  else if nm = "ping" then .ping
  else if nm = "stdin" then .stdin
  else if nm = "command" then .command
  else if nm = "exec" ∨ nm = "e" then .exec
  else if nm = "listen" ∨ nm = "l" then .listen
  else if nm = "dns" then .dns
  else if nm = "dnshost" ∨ nm = "host" then .dnshost
  else if nm = "dnsport" ∨ nm = "port" then .dnsport
  else if nm = "d" then .dflag
  else if nm = "q" then .qflag
  else .unhandled

/-- One matched long option, mirroring the `case 0:` switch body of
`main`. `.error st` models a call to `usage(...)`, which prints the
help text and calls `exit(0)`. -/
def applyOpt (st : ParseState) (nm : String) (arg : String) :
    Except ParseState ParseState :=
  match optTag nm with
  | .help => .error st
  | .name => .ok { st with name := some arg }
  | .download => .ok { st with download := some arg }
  | .chunk => .ok { st with chunk := toU32 (atoi arg) }
  | .ping =>
    if st.inputSet then .error st
    else .ok { st with inputSet := true, ping := true,
                       minLogLevel := st.minLogLevel + 1 }
  | .stdin =>
    if st.inputSet then .error st
    else .ok { st with inputSet := true, console := true }
  | .command =>
    if st.inputSet then .error st
    else .ok { st with inputSet := true, command := true }
  | .exec =>
    if st.inputSet then .error st
    else .ok { st with inputSet := true, exec := true }
  | .listen =>
    if st.inputSet then .error st
    else .ok { st with inputSet := true, listener := true }
  | .dns =>
    if st.outputSet then .error st
    else .ok { st with outputSet := true, dns := true, dnsDomain := some arg }
  | .dnshost => .ok { st with host := some arg }
  | .dnsport => .ok { st with port := toU16 (atoi arg) }
  | .dflag =>
    .ok (if st.minLogLevel > 0
         then { st with minLogLevel := st.minLogLevel - 1 }
         else st)
  | .qflag => .ok st
  | .unhandled => .error st

/-- How `getopt_long_only` treats one command-line token. -/
inductive TokClass where
  | terminator
  | positional
  | ignore
  | noArg (nm : String)
  | withArg (nm a : String)
  | needArg (nm : String)
  deriving DecidableEq

/-- Classify one token the way `getopt_long_only` does with an empty
optstring: `--` ends option processing; a token not starting with a
dash (or a lone `-`) is a non-option argument (permuted to the end); an
option body is matched against the `long_options` table (unknown names
yield `?`, which the loop's `default:` case ignores); a matching entry
either carries its argument after `=`, needs the next token as its
argument, or takes none (a `=value` on a no-argument option is a `?`
error, ignored likewise). -/
def tokClass (t : String) : TokClass :=
  if t = "--" then .terminator
  else if isOptTok t then
    match findOpt (splitEq (optBody t)).1 with
    | none => .ignore
    | some opt =>
      match (splitEq (optBody t)).2 with
      | some a => if opt.2 then .withArg (splitEq (optBody t)).1 a else .ignore
      | none =>
        if opt.2 then .needArg (splitEq (optBody t)).1
        else .noArg (splitEq (optBody t)).1
  else .positional

/-- The `getopt_long_only` loop of `main`: tokens are consumed left to
right, non-option arguments are collected (getopt permutes them to the
end, so `argv[optind]` after the loop is the first of `positionals`),
and each matched option is handled by the `case 0:` switch body
(`applyOpt`). A required argument with no following token is a `?`,
ignored; the loop then ends anyway. -/
def parseLoop : List String → ParseState → Except ParseState ParseState
  | [], st => .ok st
  | t :: rest, st =>
    match tokClass t with
    | .terminator => .ok { st with positionals := st.positionals ++ rest }
    | .positional => parseLoop rest { st with positionals := st.positionals ++ [t] }
    | .ignore => parseLoop rest st
    | .noArg nm =>
      match applyOpt st nm "" with
      | .error e => .error e
      | .ok st2 => parseLoop rest st2
    | .withArg nm a =>
      match applyOpt st nm a with
      | .error e => .error e
      | .ok st2 => parseLoop rest st2
    | .needArg nm =>
      match rest with
      | [] => .ok st
      | a :: rest2 =>
        match applyOpt st nm a with
        | .error e => .error e
        | .ok st2 => parseLoop rest2 st2

/-- The state carried by either constructor of a parse result (on
`usage` the process state at the moment of exit). -/
def stateOf : Except ParseState ParseState → ParseState
  | .error st => st
  | .ok st => st

/-- Which driver globals are non-NULL. -/
structure Drivers where
  console : Bool
  command : Bool
  exec : Bool
  listener : Bool
  ping : Bool
  dns : Bool
  deriving DecidableEq

/-- The driver globals corresponding to a parse state. -/
def driversOf (st : ParseState) : Drivers :=
  ⟨st.console, st.command, st.exec, st.listener, st.ping, st.dns⟩

/-- Number of attached input drivers. -/
def inputCount (d : Drivers) : Nat :=
  (cond d.console 1 0) + (cond d.command 1 0) + (cond d.exec 1 0) +
  (cond d.listener 1 0) + (cond d.ping 1 0)

/-- Observable actions: `message_post_*` calls and the calls made by
the `cleanup()` hook. `sessionEngineDestroy` exists only so the destroy
order claimed by the spec can be written down; `cleanup()` never emits
it. -/
inductive Event where
  | configString (key val : String)
  | configInt (key : String) (val : Nat)
  | postStart
  | postShutdown
  | msgCleanup
  | destroyGroup
  | destroyConsole
  | destroyCommand
  | destroyDns
  | destroyExec
  | destroyListener
  | destroyPing
  | sessionEngineDestroy
  deriving DecidableEq

/-- The `cleanup()` function (registered via `atexit`): posts the
shutdown message, cleans the message bus up, destroys the select group
if non-NULL, then destroys every non-NULL driver in the source's fixed
order console, command, dns, exec, listener, ping. -/
def cleanup (group : Bool) (d : Drivers) : List Event :=
  [Event.postShutdown, Event.msgCleanup]
  ++ (if group then [Event.destroyGroup] else [])
  ++ (if d.console then [Event.destroyConsole] else [])
  ++ (if d.command then [Event.destroyCommand] else [])
  ++ (if d.dns then [Event.destroyDns] else [])
  ++ (if d.exec then [Event.destroyExec] else [])
  ++ (if d.listener then [Event.destroyListener] else [])
  ++ (if d.ping then [Event.destroyPing] else [])

/-- Modelled from the spec: the destroy order the spec claims for the
cleanup hook — shutdown event, then session engine, then every attached
input driver, then the DNS output driver, then the message bus, then
the reactor (select group). Written from the spec's words, to be
compared with `cleanup`, which is written from the source. -/
def cleanupSpecOrder (d : Drivers) : List Event :=
  [Event.postShutdown, Event.sessionEngineDestroy]
  ++ (if d.console then [Event.destroyConsole] else [])
  ++ (if d.command then [Event.destroyCommand] else [])
  ++ (if d.exec then [Event.destroyExec] else [])
  ++ (if d.listener then [Event.destroyListener] else [])
  ++ (if d.ping then [Event.destroyPing] else [])
  ++ (if d.dns then [Event.destroyDns] else [])
  ++ [Event.msgCleanup, Event.destroyGroup]

/-- Everything observable about one run of `main` up to the point where
it either exits or enters the reactor loop. `exitCode = some c` means
the process terminated during startup with status `c`; `none` means
the reactor loop was entered. -/
structure MainOutcome where
  exitCode : Option Nat
  usageCalled : Bool
  atexitRegistered : Bool
  drivers : Drivers
  domain : Option String
  hostParsed : Option String
  dnsHost : Option String
  minLogLevel : Int
  events : List Event
  name : Option String
  download : Option String
  chunk : Nat
  deriving DecidableEq

/-- Outcome of a `usage(...)` call: print help, `exit(0)`. No message
has been posted yet and `atexit(cleanup)` has not been registered. -/
def mkUsageExit (st : ParseState) : MainOutcome :=
  { exitCode := some 0, usageCalled := true, atexitRegistered := false,
    drivers := driversOf st, domain := st.dnsDomain, hostParsed := st.host,
    dnsHost := none, minLogLevel := st.minLogLevel, events := [],
    name := st.name, download := st.download, chunk := st.chunk }

/-- Outcome of a `LOG_FATAL` followed by `exit(c)` during startup. -/
def mkFatalExit (st : ParseState) (c : Nat) : MainOutcome :=
  { exitCode := some c, usageCalled := false, atexitRegistered := false,
    drivers := driversOf st, domain := st.dnsDomain, hostParsed := st.host,
    dnsHost := none, minLogLevel := st.minLogLevel, events := [],
    name := st.name, download := st.download, chunk := st.chunk }

/-- The `message_post_config_*` calls made just before
`message_post_start()` (name, then download, then chunk — the last one
only when `chunk != 0xFFFFFFFF`). -/
def configEvents (st : ParseState) : List Event :=
  (match st.name with
   | some n => [Event.configString "name" n]
   | none => [])
  ++ (match st.download with
      | some dl => [Event.configString "download" dl]
      | none => [])
  ++ (if st.chunk ≠ 4294967295 then [Event.configInt "chunk" st.chunk] else [])

/-- Successful startup: `atexit(cleanup)` registered, config messages
and `start` posted, reactor loop entered (`exitCode = none`). -/
def mkSuccess (st : ParseState) (addr : String) : MainOutcome :=
  { exitCode := none, usageCalled := false, atexitRegistered := true,
    drivers := driversOf st, domain := st.dnsDomain, hostParsed := st.host,
    dnsHost := some addr, minLogLevel := st.minLogLevel,
    events := configEvents st ++ [Event.postStart],
    name := st.name, download := st.download, chunk := st.chunk }

/-- The straight-line tail of `main` after the domain has been settled:
the `--chunk`-without-`--download` check (`exit(1)`), the input-driver
sanity check, the output-driver sanity check, DNS resolver-address
resolution (`--host` value if given, else the system resolver;
`exit(1)` when neither yields an address), then registration of the
cleanup hook and the config/start messages. -/
def afterDomain (st : ParseState) (systemDns : Option String) : MainOutcome :=
  if st.chunk ≠ 4294967295 ∧ st.download = none then
    mkFatalExit st 1
  else if ¬ (st.console ∨ st.command ∨ st.listener ∨ st.exec ∨ st.ping) then
    mkFatalExit st 1
  else if ¬ st.dns then
    mkFatalExit st 1
  else
    match (match st.host with | none => systemDns | some x => some x) with
    | none => mkFatalExit st 1
    | some addr => mkSuccess st addr

/-- The code between the getopt loop and the DNS-host lookup: if no
output was set, the first non-option argument becomes the tunnel domain
(`usage` exit when there is none). -/
def postParse (st1 : ParseState) : Except ParseState ParseState :=
  if st1.outputSet then .ok st1
  else
    match st1.positionals with
    | [] => .error st1
    | dom :: _ => .ok { st1 with dns := true, dnsDomain := some dom }

/-- The resolver-independent part of `main`: the getopt loop, the
console default, and the domain selection. `.error st` is a `usage`
exit. -/
def mainState (args : List String) : Except ParseState ParseState :=
  match parseLoop args ({} : ParseState) with
  | .error st => .error st
  | .ok st0 => postParse (if st0.inputSet then st0 else { st0 with console := true })

/-- The whole of `main` up to the reactor loop, as a function of the
command-line tokens after `argv[0]` and of the system resolver address
(`dns_get_system()`, `NULL` modelled as `none`). -/
def runMain (args : List String) (systemDns : Option String) : MainOutcome :=
  match mainState args with
  | .error st => mkUsageExit st
  | .ok st => afterDomain st systemDns

/-- The observable actions of a whole terminating run: the messages
posted during startup followed, when `atexit(cleanup)` was registered,
by the actions of the cleanup hook (the select group is non-NULL from
the top of `main` onwards). -/
def exitTrace (o : MainOutcome) : List Event :=
  o.events ++ (if o.atexitRegistered then cleanup true o.drivers else [])

example : (runMain [] (some "8.8.8.8")).exitCode = some 0 := by decide
example : (runMain ["dom.com"] (some "8.8.8.8")).exitCode = none := by decide
example : (runMain ["dom.com"] (some "8.8.8.8")).drivers =
    ⟨true, false, false, false, false, true⟩ := by decide
example : (runMain ["--stdin", "--ping", "dom.com"] (some "r")).exitCode = some 0 := by decide
example : (runMain ["--chunk", "5", "dom.com"] (some "r")).exitCode = some 1 := by decide
example : (runMain ["--chunk", "-1", "dom.com"] (some "r")).exitCode = none := by decide
example : (runMain ["--ping"] (some "r")).exitCode = some 0 := by decide
example : (runMain ["-q", "dom.com"] (some "r")).minLogLevel = 1 := by decide
example : (runMain ["-d", "-d", "dom.com"] (some "r")).minLogLevel = 0 := by decide
example : (runMain ["--host", "1.2.3.4", "dom.com"] none).dnsHost = some "1.2.3.4" := by decide
example : (runMain ["dom.com"] none).exitCode = some 1 := by decide
example : (runMain ["--name", "bob", "--download", "f", "--chunk", "3", "dom.com"]
    (some "r")).events =
    [Event.configString "name" "bob", Event.configString "download" "f",
     Event.configInt "chunk" 3, Event.postStart] := by decide

/-- Any property preserved by every matched option and by appending
positional arguments is an invariant of the whole getopt loop, whether
it ends normally or in a `usage` exit. -/
theorem parseLoop_preserves (P : ParseState → Prop)
    (happ : ∀ st nm a, P st → P (stateOf (applyOpt st nm a)))
    (hpos : ∀ st xs, P st → P { st with positionals := st.positionals ++ xs }) :
    ∀ args st, P st → P (stateOf (parseLoop args st)) := by
  intro args st
  induction args, st using parseLoop.induct with
  | case1 st =>
    intro hP
    simpa [parseLoop, stateOf] using hP
  | case2 t rest st hcl =>
    intro hP
    simp only [parseLoop, hcl]
    simpa [stateOf] using hpos st rest hP
  | case3 t rest st hcl ih1 =>
    intro hP
    simp only [parseLoop, hcl]
    exact ih1 (hpos st [t] hP)
  | case4 t rest st hcl ih1 =>
    intro hP
    simp only [parseLoop, hcl]
    exact ih1 hP
  | case5 t rest st nm hcl e happly =>
    intro hP
    simp only [parseLoop, hcl, happly]
    have h2 := happ st nm "" hP
    rw [happly] at h2
    simpa [stateOf] using h2
  | case6 t rest st nm hcl st2 happly ih1 =>
    intro hP
    simp only [parseLoop, hcl, happly]
    have h2 := happ st nm "" hP
    rw [happly] at h2
    exact ih1 (by simpa [stateOf] using h2)
  | case7 t rest st nm a hcl e happly =>
    intro hP
    simp only [parseLoop, hcl, happly]
    have h2 := happ st nm a hP
    rw [happly] at h2
    simpa [stateOf] using h2
  | case8 t rest st nm a hcl st2 happly ih1 =>
    intro hP
    simp only [parseLoop, hcl, happly]
    have h2 := happ st nm a hP
    rw [happly] at h2
    exact ih1 (by simpa [stateOf] using h2)
  | case9 t st nm hcl =>
    intro hP
    simp only [parseLoop, hcl]
    simpa [stateOf] using hP
  | case10 t st nm hcl a rest2 e happly =>
    intro hP
    simp only [parseLoop, hcl, happly]
    have h2 := happ st nm a hP
    rw [happly] at h2
    simpa [stateOf] using h2
  | case11 t st nm hcl a rest2 st2 happly ih1 =>
    intro hP
    simp only [parseLoop, hcl, happly]
    have h2 := happ st nm a hP
    rw [happly] at h2
    exact ih1 (by simpa [stateOf] using h2)

/-- No branch of the option switch makes the log level negative: `-d`
decrements only behind the `min_log_level > 0` guard, `--ping`
increments, everything else leaves the level alone. -/
lemma applyOpt_level (st : ParseState) (nm a : String)
    (h : 0 ≤ st.minLogLevel) : 0 ≤ (stateOf (applyOpt st nm a)).minLogLevel := by
  unfold applyOpt
  split <;>
    first
    | exact h
    | (split <;>
        first
        | exact h
        | (show (0:Int) ≤ st.minLogLevel + 1
           omega)
        | (show (0:Int) ≤ st.minLogLevel - 1
           omega))

/-- The log level is non-negative in every state the getopt loop can
reach from the initial state. -/
lemma parse_level_nonneg (args : List String) :
    0 ≤ (stateOf (parseLoop args ({} : ParseState))).minLogLevel :=
  parseLoop_preserves (fun st => 0 ≤ st.minLogLevel) applyOpt_level
    (fun st xs h => by simpa using h) args {} (by decide)

/-- The code after the getopt loop never changes the log level. -/
lemma afterDomain_level (st : ParseState) (sys : Option String) :
    (afterDomain st sys).minLogLevel = st.minLogLevel := by
  unfold afterDomain
  split_ifs <;> first
  | rfl
  | (split <;> rfl)

/-- The domain-selection code never changes the log level. -/
lemma postParse_level (st1 : ParseState) :
    (stateOf (postParse st1)).minLogLevel = st1.minLogLevel := by
  unfold postParse
  split
  · rfl
  · split <;> rfl

/-- Neither the console default nor the domain selection changes the
log level: `mainState` ends with the level the getopt loop produced. -/
lemma mainState_level (args : List String) :
    (stateOf (mainState args)).minLogLevel =
      (stateOf (parseLoop args ({} : ParseState))).minLogLevel := by
  unfold mainState
  cases hp : parseLoop args ({} : ParseState) with
  | error st => simp [stateOf]
  | ok st0 =>
    by_cases hin : st0.inputSet = true
    · simp only [hin, if_true]
      exact postParse_level st0
    · simp only [hin, if_false, Bool.false_eq_true]
      exact postParse_level _

/-- The log level reported by `runMain` is exactly the level the getopt
loop ended (or exited) with. -/
lemma runMain_level (args : List String) (sys : Option String) :
    (runMain args sys).minLogLevel =
      (stateOf (parseLoop args ({} : ParseState))).minLogLevel := by
  rw [← mainState_level]
  unfold runMain
  cases hm : mainState args with
  | error st => simp [stateOf, mkUsageExit]
  | ok st => simp [stateOf, afterDomain_level]

/-- The invariant maintained by the getopt loop that yields the
exactly-one-driver property: while no input option has been seen all
input-driver globals are NULL, once one has been seen exactly one is
non-NULL; the DNS driver global is non-NULL exactly once `--dns` has
been seen, and it always carries a domain. -/
def Inv (st : ParseState) : Prop :=
  (st.inputSet = false → st.console = false ∧ st.command = false ∧
      st.exec = false ∧ st.listener = false ∧ st.ping = false)
  ∧ (st.inputSet = true → inputCount (driversOf st) = 1)
  ∧ (st.outputSet = false → st.dns = false)
  ∧ (st.dns = true → st.dnsDomain ≠ none)
  ∧ (st.outputSet = true → st.dns = true ∧ st.dnsDomain ≠ none)

/-- Every branch of the option switch preserves the driver invariant
(the conflict checks `if(input_set) usage(...)` are what make the
one-input half hold). -/
lemma applyOpt_inv (st : ParseState) (nm a : String)
    (h : Inv st) : Inv (stateOf (applyOpt st nm a)) := by
  obtain ⟨h1, h2, h3, h4, h5⟩ := h
  unfold applyOpt
  split
  · exact ⟨h1, h2, h3, h4, h5⟩
  · exact ⟨h1, h2, h3, h4, h5⟩
  · exact ⟨h1, h2, h3, h4, h5⟩
  · exact ⟨h1, h2, h3, h4, h5⟩
  · -- ping
    split
    · exact ⟨h1, h2, h3, h4, h5⟩
    · next hni =>
      obtain ⟨hc, hcm, he, hl, hp⟩ := h1 (by simpa using hni)
      refine ⟨fun hh => by simp [stateOf] at hh, fun _ => ?_, h3, h4, h5⟩
      simp [stateOf, inputCount, driversOf, hc, hcm, he, hl]
  · -- stdin
    split
    · exact ⟨h1, h2, h3, h4, h5⟩
    · next hni =>
      obtain ⟨hc, hcm, he, hl, hp⟩ := h1 (by simpa using hni)
      refine ⟨fun hh => by simp [stateOf] at hh, fun _ => ?_, h3, h4, h5⟩
      simp [stateOf, inputCount, driversOf, hcm, he, hl, hp]
  · -- command
    split
    · exact ⟨h1, h2, h3, h4, h5⟩
    · next hni =>
      obtain ⟨hc, hcm, he, hl, hp⟩ := h1 (by simpa using hni)
      refine ⟨fun hh => by simp [stateOf] at hh, fun _ => ?_, h3, h4, h5⟩
      simp [stateOf, inputCount, driversOf, hc, he, hl, hp]
  · -- exec
    split
    · exact ⟨h1, h2, h3, h4, h5⟩
    · next hni =>
      obtain ⟨hc, hcm, he, hl, hp⟩ := h1 (by simpa using hni)
      refine ⟨fun hh => by simp [stateOf] at hh, fun _ => ?_, h3, h4, h5⟩
      simp [stateOf, inputCount, driversOf, hc, hcm, hl, hp]
  · -- listen
    split
    · exact ⟨h1, h2, h3, h4, h5⟩
    · next hni =>
      obtain ⟨hc, hcm, he, hl, hp⟩ := h1 (by simpa using hni)
      refine ⟨fun hh => by simp [stateOf] at hh, fun _ => ?_, h3, h4, h5⟩
      simp [stateOf, inputCount, driversOf, hc, hcm, he, hp]
  · -- dns
    split
    · exact ⟨h1, h2, h3, h4, h5⟩
    · exact ⟨h1, h2, fun hh => by simp [stateOf] at hh, fun _ => by simp [stateOf],
        fun _ => ⟨rfl, by simp [stateOf]⟩⟩
  · exact ⟨h1, h2, h3, h4, h5⟩
  · exact ⟨h1, h2, h3, h4, h5⟩
  · -- d
    split
    · exact ⟨h1, h2, h3, h4, h5⟩
    · exact ⟨h1, h2, h3, h4, h5⟩
  · exact ⟨h1, h2, h3, h4, h5⟩
  · exact ⟨h1, h2, h3, h4, h5⟩

/-- Ordinary arguments do not touch the driver flags. -/
lemma pos_inv (st : ParseState) (xs : List String) (h : Inv st) :
    Inv { st with positionals := st.positionals ++ xs } := by
  simpa [Inv, inputCount, driversOf] using h

/-- The driver invariant holds in every state the getopt loop can reach
from the initial state. -/
lemma parse_inv (args : List String) :
    Inv (stateOf (parseLoop args ({} : ParseState))) :=
  parseLoop_preserves Inv applyOpt_inv pos_inv args {}
    (by simp [Inv, inputCount, driversOf])

/-- The effect of one `-d` on the state: the guarded decrement. -/
def dStep (st : ParseState) : ParseState :=
  if st.minLogLevel > 0 then { st with minLogLevel := st.minLogLevel - 1 } else st

/-- `k` guarded decrements in a row. -/
def dIter : Nat → ParseState → ParseState
  | 0, st => st
  | k+1, st => dIter k (dStep st)

lemma parse_d_step (rest : List String) (st : ParseState) :
    parseLoop ("-d" :: rest) st = parseLoop rest (dStep st) := rfl

lemma parse_q_step (rest : List String) (st : ParseState) :
    parseLoop ("-q" :: rest) st = parseLoop rest st := rfl

lemma parse_chunk_step (a : String) (rest : List String) (st : ParseState) :
    parseLoop ("--chunk" :: a :: rest) st
      = parseLoop rest { st with chunk := toU32 (atoi a) } := rfl

lemma parse_replicate_d (k : Nat) (rest : List String) (st : ParseState) :
    parseLoop (List.replicate k "-d" ++ rest) st = parseLoop rest (dIter k st) := by
  induction k generalizing st with
  | zero => rfl
  | succ k ih =>
    show parseLoop ("-d" :: (List.replicate k "-d" ++ rest)) st = _
    rw [parse_d_step]
    exact ih (dStep st)

lemma parse_replicate_q (k : Nat) (rest : List String) (st : ParseState) :
    parseLoop (List.replicate k "-q" ++ rest) st = parseLoop rest st := by
  induction k with
  | zero => rfl
  | succ k ih =>
    show parseLoop ("-q" :: (List.replicate k "-q" ++ rest)) st = _
    rw [parse_q_step]
    exact ih

/-- `k` guarded decrements from a non-negative level saturate at 0. -/
lemma dIter_eq (k : Nat) (st : ParseState) (h : 0 ≤ st.minLogLevel) :
    dIter k st = { st with minLogLevel := max 0 (st.minLogLevel - (k : Int)) } := by
  induction k generalizing st with
  | zero =>
    simp only [dIter, Nat.cast_zero, sub_zero]
    rw [max_eq_right h]
  | succ k ih =>
    show dIter k (dStep st) = _
    by_cases hl : st.minLogLevel > 0
    · have hds : dStep st = { st with minLogLevel := st.minLogLevel - 1 } := by
        simp [dStep, hl]
      rw [hds, ih _ (by simp; omega)]
      simp only [ParseState.mk.injEq, and_true, true_and]
      omega
    · have hds : dStep st = st := by simp [dStep, hl]
      rw [hds, ih st h]
      simp only [ParseState.mk.injEq, and_true, true_and]
      omega

/-- Shape of a successful domain selection: either `--dns` had set the
output, or the first positional argument became the domain. -/
lemma postParse_ok (st1 st : ParseState) (h : postParse st1 = .ok st) :
    (st1.outputSet = true ∧ st = st1) ∨
    (∃ dom rest, st1.positionals = dom :: rest ∧
      st = { st1 with dns := true, dnsDomain := some dom }) := by
  unfold postParse at h
  by_cases ho : st1.outputSet = true
  · rw [if_pos ho] at h
    injection h with h2
    exact Or.inl ⟨ho, h2.symm⟩
  · rw [if_neg ho] at h
    cases hp : st1.positionals with
    | nil => rw [hp] at h; exact Except.noConfusion h
    | cons dom rest =>
      rw [hp] at h
      injection h with h2
      exact Or.inr ⟨dom, rest, rfl, h2.symm⟩

/-- Any state that survives the console default and the domain
selection has exactly one input driver, the DNS driver, and a domain. -/
lemma mainState_ok_facts (args : List String) (st : ParseState)
    (h : mainState args = .ok st) :
    inputCount (driversOf st) = 1 ∧ st.dns = true ∧ st.dnsDomain ≠ none := by
  have hInv0 := parse_inv args
  unfold mainState at h
  cases hp : parseLoop args ({} : ParseState) with
  | error st0 => rw [hp] at h; exact Except.noConfusion h
  | ok st0 =>
    rw [hp] at h
    replace h : postParse (if st0.inputSet = true then st0
        else { st0 with console := true }) = .ok st := h
    rw [hp] at hInv0
    replace hInv0 : Inv st0 := hInv0
    obtain ⟨h1, h2, h3, h4, h5⟩ := hInv0
    by_cases hin : st0.inputSet = true
    · rw [if_pos hin] at h
      have hc1 : inputCount (driversOf st0) = 1 := h2 hin
      rcases postParse_ok _ _ h with ⟨ho, rfl⟩ | ⟨dom, rest, hpos, rfl⟩
      · exact ⟨hc1, (h5 ho).1, (h5 ho).2⟩
      · refine ⟨?_, rfl, by simp⟩
        simpa [inputCount, driversOf] using hc1
    · rw [if_neg hin] at h
      obtain ⟨hc, hcm, he, hl, hp2⟩ := h1 (by simpa using hin)
      rcases postParse_ok _ _ h with ⟨ho, rfl⟩ | ⟨dom, rest, hpos, rfl⟩
      · refine ⟨?_, (h5 ho).1, (h5 ho).2⟩
        simp [inputCount, driversOf, hcm, he, hl, hp2]
      · refine ⟨?_, rfl, by simp⟩
        simp [inputCount, driversOf, hcm, he, hl, hp2]

/-- Shape of a successful tail of `main`: all fatal checks passed and
the resolver address is the `--host` value or the system resolver. -/
lemma afterDomain_success (st : ParseState) (sys : Option String)
    (h : (afterDomain st sys).exitCode = none) :
    ∃ addr, (match st.host with | none => sys | some x => some x) = some addr ∧
      afterDomain st sys = mkSuccess st addr ∧
      ¬(st.chunk ≠ 4294967295 ∧ st.download = none) := by
  unfold afterDomain at h ⊢
  split_ifs at h ⊢ with h1 h2 h3
  all_goals try exact Option.noConfusion h
  cases hx : st.host with
  | none =>
    rw [hx] at h
    cases sys with
    | none => exact Option.noConfusion h
    | some s => exact ⟨s, rfl, rfl, h1⟩
  | some x => exact ⟨x, rfl, rfl, h1⟩

/-- With no `--host` and no system resolver, every path of the tail of
`main` is a fatal `exit(1)`. -/
lemma afterDomain_none_host_none (st : ParseState) (hx : st.host = none) :
    afterDomain st none = mkFatalExit st 1 := by
  unfold afterDomain
  split_ifs <;> first | rfl | simp [hx]

/-- Shape of a full successful startup. -/
lemma runMain_success (args : List String) (sys : Option String)
    (h : (runMain args sys).exitCode = none) :
    ∃ st addr, mainState args = .ok st ∧
      runMain args sys = mkSuccess st addr ∧
      (match st.host with | none => sys | some x => some x) = some addr ∧
      inputCount (driversOf st) = 1 ∧ st.dns = true ∧ st.dnsDomain ≠ none ∧
      ¬(st.chunk ≠ 4294967295 ∧ st.download = none) := by
  unfold runMain at h ⊢
  cases hm : mainState args with
  | error st => rw [hm] at h; simp [mkUsageExit] at h
  | ok st =>
    rw [hm] at h
    obtain ⟨addr, ha, he, hch⟩ := afterDomain_success st sys h
    obtain ⟨hc1, hdns, hdom⟩ := mainState_ok_facts args st hm
    exact ⟨st, addr, rfl, he, ha, hc1, hdns, hdom, hch⟩

/-- Shape of the tail of `main`: it either succeeds or is a fatal
`exit(1)`. -/
lemma afterDomain_shape (st : ParseState) (sys : Option String) :
    (∃ addr, afterDomain st sys = mkSuccess st addr) ∨
      afterDomain st sys = mkFatalExit st 1 := by
  unfold afterDomain
  split_ifs <;>
    first
    | (right; rfl)
    | (cases hx : st.host with
       | none =>
         cases sys with
         | none => right; rfl
         | some s => left; exact ⟨s, rfl⟩
       | some x => left; exact ⟨x, rfl⟩)

/-- Any startup that exits is a `usage` exit or a fatal `exit(1)`. -/
lemma runMain_exit_shape (args : List String) (sys : Option String)
    (h : (runMain args sys).exitCode.isSome) :
    (∃ st, runMain args sys = mkUsageExit st) ∨
      (∃ st, runMain args sys = mkFatalExit st 1) := by
  unfold runMain at *
  cases hm : mainState args with
  | error st => left; exact ⟨st, rfl⟩
  | ok st =>
    rw [hm] at h
    replace h : (afterDomain st sys).exitCode.isSome := h
    rcases afterDomain_shape st sys with ⟨addr, heq⟩ | heq
    · rw [heq] at h
      simp [mkSuccess] at h
    · right; exact ⟨st, heq⟩

/-- Claim C1: every configuration error (conflicting input options,
missing domain, `--chunk` without `--download`) terminates startup
before the reactor loop — but the exit status is 0 for the errors
routed through `usage()` (which calls `exit(0)`; the `exit(1)` after
the missing-domain `usage()` call is unreachable), and 1 only for the
`--chunk`-without-`--download` check. This refutes the claimed uniform
status 1 and documents the code slip. -/
theorem usage_config_error_exit_codes :
    (runMain [] (some "8.8.8.8")).exitCode = some 0 ∧
    (runMain [] (some "8.8.8.8")).usageCalled = true ∧
    (runMain ["--stdin", "--ping", "dom.com"] (some "8.8.8.8")).exitCode = some 0 ∧
    (runMain ["--chunk", "5", "dom.com"] (some "8.8.8.8")).exitCode = some 1 := by
  decide

/-- Claim C2, counterexample: one `-q` leaves the minimum console log
level at the warning default instead of raising it by one — the `-q`
branch of the switch only re-applies the current level. -/
theorem q_flag_leaves_level_unchanged :
    (runMain ["-q", "dom.com"] (some "res")).minLogLevel = LOG_LEVEL_WARNING ∧
    (runMain ["-q", "dom.com"] (some "res")).minLogLevel ≠ LOG_LEVEL_WARNING + 1 := by
  decide

/-- Claim C2, amended: each `-d` lowers the minimum console log level
by one while it is above zero (saturating at zero) and `-q` leaves it
unchanged, so with `k` occurrences of `-d` (and no other level-touching
option) the level after parsing is `max 0 (WARNING - k)`, and any
number of `-q` leaves it at the default. -/
theorem log_level_tuning (k : Nat) (r : String) :
    (runMain (List.replicate k "-d" ++ ["dom.com"]) (some r)).minLogLevel
      = max 0 (LOG_LEVEL_WARNING - (k : Int)) ∧
    (runMain (List.replicate k "-q" ++ ["dom.com"]) (some r)).minLogLevel
      = LOG_LEVEL_WARNING := by
  constructor
  · rw [runMain_level, parse_replicate_d, dIter_eq k {} (by decide)]
    rfl
  · rw [runMain_level, parse_replicate_q]
    decide

/-- Claim C3, counterexample: with the default console input driver and
the DNS driver attached, the cleanup hook's call order differs from the
order the spec claims (session engine, input drivers, output driver,
bus, reactor): the code cleans the bus up and destroys the reactor
before any driver, never destroys a session engine, and destroys the
DNS driver between the command and exec drivers. -/
theorem cleanup_order_differs_from_spec :
    cleanup true ⟨true, false, false, false, false, true⟩ ≠
      cleanupSpecOrder ⟨true, false, false, false, false, true⟩ := by
  decide

/-- Claim C3, amended: the cleanup hook posts the shutdown event, then
cleans the message bus up, then destroys the reactor (select group),
then destroys the attached drivers in the fixed order console, command,
DNS, exec, listener, ping; no separate session-engine destroy call is
made by the hook. -/
theorem cleanup_call_order (d : Drivers) :
    cleanup true d =
      [Event.postShutdown, Event.msgCleanup, Event.destroyGroup] ++
        (([(d.console, Event.destroyConsole), (d.command, Event.destroyCommand),
           (d.dns, Event.destroyDns), (d.exec, Event.destroyExec),
           (d.listener, Event.destroyListener),
           (d.ping, Event.destroyPing)].filter (fun p => p.1)).map (fun p => p.2)) := by
  obtain ⟨c, cm, e, l, p, dn⟩ := d
  cases c <;> cases cm <;> cases e <;> cases l <;> cases p <;> cases dn <;> rfl

/-- Claim C4, counterexample: `--ping` with no domain is rejected at
startup (the missing-domain check is unconditional), refuting the
claimed exemption for `--ping`. -/
theorem ping_without_domain_rejected :
    (runMain ["--ping"] (some "res")).exitCode = some 0 ∧
    (runMain ["--ping"] (some "res")).usageCalled = true := by
  decide

/-- Claim C4, amended: a tunnel domain (via `--dns` or as the first
non-option argument) is mandatory for startup to succeed in every
configuration, `--ping` included. -/
theorem domain_mandatory (args : List String) (sys : Option String)
    (h : (runMain args sys).exitCode = none) :
    (runMain args sys).domain ≠ none := by
  obtain ⟨st, addr, hm, he, ha, hc1, hdns, hdom, hch⟩ := runMain_success args sys h
  rw [he]
  simpa [mkSuccess] using hdom

/-- Witness for `domain_mandatory` at a concrete command line. -/
theorem domain_mandatory_witness :
    (runMain ["dom.com"] (some "res")).domain ≠ none :=
  domain_mandatory ["dom.com"] (some "res") (by decide)

/-- Claim C5: whenever startup succeeds, exactly one input driver and
the DNS output driver are attached; with no input option the console
driver is the one attached; a second input option or a second `--dns`
is rejected at startup. -/
theorem one_input_one_output :
    (∀ args sys, (runMain args sys).exitCode = none →
      inputCount (runMain args sys).drivers = 1 ∧
      (runMain args sys).drivers.dns = true) ∧
    (runMain ["dom.com"] (some "res")).drivers =
      ⟨true, false, false, false, false, true⟩ ∧
    (runMain ["--stdin", "--ping", "dom.com"] (some "res")).exitCode = some 0 ∧
    (runMain ["--dns", "a.com", "--dns", "b.com", "dom.com"] (some "res")).exitCode
      = some 0 := by
  refine ⟨?_, by decide, by decide, by decide⟩
  intro args sys h
  obtain ⟨st, addr, hm, he, ha, hc1, hdns, hdom, hch⟩ := runMain_success args sys h
  rw [he]
  exact ⟨by simpa [mkSuccess, driversOf] using hc1,
         by simpa [mkSuccess, driversOf] using hdns⟩

/-- Witness for `one_input_one_output` at a concrete command line. -/
theorem one_input_one_output_witness :
    inputCount (runMain ["dom.com"] (some "res")).drivers = 1 ∧
    (runMain ["dom.com"] (some "res")).drivers.dns = true :=
  one_input_one_output.1 ["dom.com"] (some "res") (by decide)

/-- Claim C6: on a successful startup the DNS driver's resolver address
is the `--host`/`--dnshost` value when one was given and the system
resolver otherwise; and a command line that succeeds thanks to the
system resolver (no `--host`) exits fatally with status 1 when the
system resolver lookup yields nothing. -/
theorem dns_host_resolution :
    (∀ args sys, (runMain args sys).exitCode = none →
      (runMain args sys).dnsHost =
        (match (runMain args sys).hostParsed with
         | none => sys
         | some x => some x) ∧
      (runMain args sys).dnsHost ≠ none) ∧
    (∀ args r, (runMain args (some r)).exitCode = none →
      (runMain args (some r)).hostParsed = none →
      (runMain args none).exitCode = some 1) := by
  constructor
  · intro args sys h
    obtain ⟨st, addr, hm, he, ha, hc1, hdns, hdom, hch⟩ := runMain_success args sys h
    rw [he]
    constructor
    · show some addr = (match st.host with | none => sys | some x => some x)
      exact ha.symm
    · simp [mkSuccess]
  · intro args r h hparsed
    obtain ⟨st, addr, hm, he, ha, hc1, hdns, hdom, hch⟩ :=
      runMain_success args (some r) h
    have hx : st.host = none := by
      rw [he] at hparsed
      simpa [mkSuccess] using hparsed
    have h2 : runMain args none = afterDomain st none := by
      unfold runMain
      rw [hm]
    rw [h2, afterDomain_none_host_none st hx]
    rfl

/-- Witness for `dns_host_resolution` at concrete command lines. -/
theorem dns_host_resolution_witness :
    ((runMain ["--host", "1.2.3.4", "dom.com"] (some "9.9.9.9")).dnsHost =
      (match (runMain ["--host", "1.2.3.4", "dom.com"] (some "9.9.9.9")).hostParsed with
       | none => some "9.9.9.9"
       | some x => some x) ∧
     (runMain ["--host", "1.2.3.4", "dom.com"] (some "9.9.9.9")).dnsHost ≠ none) ∧
    (runMain ["dom.com"] none).exitCode = some 1 :=
  ⟨dns_host_resolution.1 ["--host", "1.2.3.4", "dom.com"] (some "9.9.9.9") (by decide),
   dns_host_resolution.2 ["dom.com"] "res" (by decide) (by decide)⟩

/-- Claim C7, counterexample: `--chunk -1` parses, startup succeeds
without `--download`, and no `config_int("chunk")` event is posted
although `--chunk` was given — the parsed value collides with the
0xFFFFFFFF not-given sentinel. -/
theorem chunk_neg_one_posts_no_event :
    (runMain ["--chunk", "-1", "dom.com"] (some "res")).exitCode = none ∧
    (runMain ["--chunk", "-1", "dom.com"] (some "res")).events = [Event.postStart] := by
  decide

/-- Claim C7, amended: after a successful startup the front end posts
`config_string("name")` exactly when `--name` was parsed,
`config_string("download")` exactly when `--download` was parsed, and
`config_int("chunk")` exactly when the parsed chunk value differs from
0xFFFFFFFF (so `--chunk` with a value converting to 0xFFFFFFFF posts
nothing); all configuration events precede the start event, which is
last. -/
theorem config_event_order (args : List String) (sys : Option String)
    (h : (runMain args sys).exitCode = none) :
    (runMain args sys).events =
      (match (runMain args sys).name with
       | some n => [Event.configString "name" n]
       | none => [])
      ++ (match (runMain args sys).download with
          | some dl => [Event.configString "download" dl]
          | none => [])
      ++ (if (runMain args sys).chunk ≠ 4294967295
          then [Event.configInt "chunk" (runMain args sys).chunk] else [])
      ++ [Event.postStart] := by
  obtain ⟨st, addr, hm, he, ha, hc1, hdns, hdom, hch⟩ := runMain_success args sys h
  rw [he]
  show configEvents st ++ [Event.postStart] = _
  simp [mkSuccess, configEvents, List.append_assoc]

/-- Witness for `config_event_order` at a concrete command line. -/
theorem config_event_order_witness :
    (runMain ["--name", "bob", "--download", "f", "--chunk", "3", "dom.com"]
        (some "r")).events =
      (match (runMain ["--name", "bob", "--download", "f", "--chunk", "3", "dom.com"]
          (some "r")).name with
       | some n => [Event.configString "name" n]
       | none => [])
      ++ (match (runMain ["--name", "bob", "--download", "f", "--chunk", "3", "dom.com"]
          (some "r")).download with
          | some dl => [Event.configString "download" dl]
          | none => [])
      ++ (if (runMain ["--name", "bob", "--download", "f", "--chunk", "3", "dom.com"]
          (some "r")).chunk ≠ 4294967295
          then [Event.configInt "chunk"
            (runMain ["--name", "bob", "--download", "f", "--chunk", "3", "dom.com"]
              (some "r")).chunk] else [])
      ++ [Event.postStart] :=
  config_event_order ["--name", "bob", "--download", "f", "--chunk", "3", "dom.com"]
    (some "r") (by decide)

/-- Claim C8: `--chunk` with an argument whose integer value converts
to 0xFFFFFFFF (such as `-1`) is indistinguishable from omitting
`--chunk`: the whole observable outcome of `main` is identical, and in
particular startup succeeds without `--download` and no chunk event is
posted. -/
theorem chunk_neg_one_like_omitted :
    (∀ rest sys, runMain ("--chunk" :: "-1" :: rest) sys = runMain rest sys) ∧
    (runMain ["--chunk", "-1", "dom.com"] (some "res")).exitCode = none := by
  constructor
  · intro rest sys
    have h1 : parseLoop ("--chunk" :: "-1" :: rest) ({} : ParseState)
        = parseLoop rest ({} : ParseState) := by
      rw [parse_chunk_step]
      have h2 : toU32 (atoi "-1") = 4294967295 := by decide
      rw [h2]
    unfold runMain mainState
    rw [h1]
  · decide

/-- Claim C9: the minimum console log level never becomes negative (the
`-d` branch decrements only behind the `min_log_level > 0` guard), and
any `-d` occurrences beyond the warning default leave the level at
zero. -/
theorem d_flag_saturates :
    (∀ args sys, 0 ≤ (runMain args sys).minLogLevel) ∧
    (∀ k : Nat, (runMain (List.replicate (1 + k) "-d" ++ ["dom.com"])
        (some "res")).minLogLevel = 0) := by
  constructor
  · intro args sys
    rw [runMain_level]
    exact parse_level_nonneg args
  · intro k
    rw [runMain_level, parse_replicate_d, dIter_eq (1 + k) {} (by decide)]
    show max 0 (LOG_LEVEL_WARNING - ((1 + k : Nat) : Int)) = 0
    unfold LOG_LEVEL_WARNING
    omega

/-- Claim C10: any command line rejected during startup (usage exits
and fatal configuration exits alike) terminates before
`atexit(cleanup)` is registered, so no shutdown event is posted and no
destroy hook runs: the whole observable trace of such a run is empty. -/
theorem config_failure_skips_cleanup (args : List String) (sys : Option String)
    (h : (runMain args sys).exitCode.isSome) :
    (runMain args sys).atexitRegistered = false ∧
    exitTrace (runMain args sys) = [] ∧
    Event.postShutdown ∉ exitTrace (runMain args sys) := by
  rcases runMain_exit_shape args sys h with ⟨st, heq⟩ | ⟨st, heq⟩
  · rw [heq]
    exact ⟨rfl, rfl, by simp [exitTrace, mkUsageExit]⟩
  · rw [heq]
    exact ⟨rfl, rfl, by simp [exitTrace, mkFatalExit]⟩

/-- Witness for `config_failure_skips_cleanup` at a concrete command
line (no domain given). -/
theorem config_failure_skips_cleanup_witness :
    (runMain [] (some "res")).atexitRegistered = false ∧
    exitTrace (runMain [] (some "res")) = [] ∧
    Event.postShutdown ∉ exitTrace (runMain [] (some "res")) :=
  config_failure_skips_cleanup [] (some "res") (by decide)

end Dnscat
